import Mathlib

/-!
# Verification of the Perfect-Date repository against its specification

This file gives a shallow embedding, in Lean 4, of the parts of the
Perfect-Date code base (a Python project) that the specification's claims
talk about, and settles each claim by proof.

Conventions used throughout:

* Python `float` arithmetic is embedded over `ℝ` where the code applies
  transcendental functions (haversine / spherical midpoint), and over `ℚ`
  where the code only performs field arithmetic and comparisons
  (radius bands, scores, budgets).  Python `int` is embedded as `ℤ`.
* `server.py` defines `haversine_distance`, `calculate_midpoint_and_radius`
  and `find_destination_cities` twice at module top level (a first, richer
  group at lines 87–273 and a second, simpler group at lines 369–469).
  Python gives effect to the *later* definitions, which shadow the earlier
  ones; the earlier group is dead code.  Both groups are embedded here: the
  plain name is the effective (later) definition, and the `_v1` suffix marks
  the shadowed (earlier) definition.
* Fallible code is embedded with `Except`/`Option`; a Python `raise`
  becomes an `Except.error`.
-/

/-! ## Python primitives -/

/-- Python `int(x)` applied to a rational float value: truncation toward zero. -/
def pyInt (q : ℚ) : ℤ := if 0 ≤ q then ⌊q⌋ else ⌈q⌉

/-- Python `int(x)` applied to a real value: truncation toward zero. -/
noncomputable def pyIntR (x : ℝ) : ℤ := if 0 ≤ x then ⌊x⌋ else ⌈x⌉

/-- Python integer floor division `a // b`. -/
def pyFloorDiv (a b : ℤ) : ℤ := Int.fdiv a b

/-! ## Adaptive search radius (server.py)

`calculate_midpoint_and_radius` ends by picking a "smart radius" from the
distance in km.  The effective definition (server.py lines 406–414) uses four
bands; the shadowed definition (lines 173–182) uses five bands, and that
five-band table is also exactly the table asserted by the specification.
The band logic is pure field arithmetic, so it is embedded polymorphically
over a linear ordered field (used at `ℚ` for decidable evaluation and at `ℝ`
inside the full midpoint computation). -/

/-- The smart-radius selection of the *effective* `calculate_midpoint_and_radius`
(server.py lines 406–414): four bands. -/
def smart_radius {α : Type} [LinearOrderedField α] (d : α) : α :=
  if d < 8 then min 4800 (d * 1000 * (6/10))
  else if d < 32 then min 16000 (d * 1000 * (4/10))
  else if d < 80 then min 24000 (d * 1000 * (3/10))
  else min 40000 (d * 1000 * (2/10))

/-- The smart-radius selection of the *shadowed* `calculate_midpoint_and_radius`
(server.py lines 173–182): five bands.  This is also literally the five-band
table asserted by the specification. -/
def smart_radius_v1 {α : Type} [LinearOrderedField α] (d : α) : α :=
  if d < 8 then min 4800 (d * 1000 * (6/10))
  else if d < 32 then min 16000 (d * 1000 * (4/10))
  else if d < 80 then min 24000 (d * 1000 * (3/10))
  else if d < 200 then min 40000 (d * 1000 * (25/100))
  else min 80000 (d * 1000 * (15/100))

/-- Band index of a distance under the effective four-band table. -/
def radius_band {α : Type} [LinearOrderedField α] (d : α) : ℕ :=
  if d < 8 then 0 else if d < 32 then 1 else if d < 80 then 2 else 3

/-- Literal cap of each band of the effective four-band table. -/
def radius_band_cap (b : ℕ) : ℚ :=
  if b = 0 then 4800 else if b = 1 then 16000 else if b = 2 then 24000 else 40000

/-- C2, counterexample.  The claim fails on the code in two independent ways:
(1) the effective radius table is the four-band one, not the claimed five-band
table — at `d = 300` km the code computes `min 40000 (300·1000·0.2) = 40000`
while the claimed table gives `min 80000 (300·1000·0.15) = 45000`; and
(2) the claimed monotonicity across "same or ascending bands" is false even on
the claimed five-band table: `d₁ = 7 < 8 = d₂` lie in ascending bands, yet the
radius drops from 4200 m to 3200 m when crossing the band boundary. -/
theorem smart_radius_five_band_claim_fails :
    smart_radius (300 : ℚ) = 40000 ∧ smart_radius_v1 (300 : ℚ) = 45000 ∧
    smart_radius (300 : ℚ) ≠ smart_radius_v1 (300 : ℚ) ∧
    smart_radius_v1 (7 : ℚ) = 4200 ∧ smart_radius_v1 (8 : ℚ) = 3200 ∧
    smart_radius (7 : ℚ) = 4200 ∧ smart_radius (8 : ℚ) = 3200 ∧
    ¬ smart_radius_v1 (7 : ℚ) ≤ smart_radius_v1 (8 : ℚ) := by
  norm_num [smart_radius, smart_radius_v1]

/-- C2, amended.  The effective code computes the radius from the four-band
table (60 % capped at 4800 m below 8 km, 40 % capped at 16000 m below 32 km,
30 % capped at 24000 m below 80 km, 20 % capped at 40000 m from 80 km up);
the radius is monotone in the distance *within* each band (monotonicity can
fail across band boundaries), and no computed radius exceeds its band's
literal cap. -/
theorem smart_radius_monotone_within_band_and_capped :
    (∀ d1 d2 : ℚ, 0 ≤ d1 → d1 ≤ d2 → radius_band d1 = radius_band d2 →
      smart_radius d1 ≤ smart_radius d2) ∧
    (∀ d : ℚ, 0 ≤ d → smart_radius d ≤ radius_band_cap (radius_band d)) := by
  constructor
  · intro d1 d2 _ h12 hb
    simp only [smart_radius, radius_band] at hb ⊢
    split_ifs at hb ⊢ <;> first
      | exact min_le_min le_rfl (by nlinarith)
      | omega
  · intro d _
    simp only [smart_radius, radius_band, radius_band_cap]
    split_ifs <;> simp_all [min_le_left]

/-- Witness for `smart_radius_monotone_within_band_and_capped`: distances 10 km
and 20 km lie in the same band; the computed radii are 4000 m and 8000 m. -/
theorem smart_radius_monotone_within_band_and_capped_witness :
    (0:ℚ) ≤ 10 ∧ (10:ℚ) ≤ 20 ∧ radius_band (10:ℚ) = radius_band (20:ℚ) ∧
    smart_radius (10:ℚ) ≤ smart_radius (20:ℚ) ∧
    smart_radius (20:ℚ) ≤ radius_band_cap (radius_band (20:ℚ)) :=
  ⟨by norm_num, by norm_num, by norm_num [radius_band],
    smart_radius_monotone_within_band_and_capped.1 10 20 (by norm_num) (by norm_num)
      (by norm_num [radius_band]),
    smart_radius_monotone_within_band_and_capped.2 20 (by norm_num)⟩

/-! ## Great-circle distance and spherical midpoint (server.py)

The effective `haversine_distance` (server.py lines 369–379) is textually the
same computation as the shadowed one (lines 87–114), so a single embedding
serves both.  `calculate_geographic_midpoint` (lines 249–273) is the
spherical-midpoint computation that both versions of
`calculate_midpoint_and_radius` repeat inline verbatim (lines 388–404 and
146–170), so it is factored out here exactly as the source's own helper. -/

/-- Python `math.radians`. -/
noncomputable def radians (x : ℝ) : ℝ := x * (Real.pi / 180)

/-- Python `math.degrees`. -/
noncomputable def degrees (x : ℝ) : ℝ := x * (180 / Real.pi)

/-- Python `math.atan2`. -/
noncomputable def atan2 (y x : ℝ) : ℝ :=
  if 0 < x then Real.arctan (y / x)
  else if x < 0 then
    (if 0 ≤ y then Real.arctan (y / x) + Real.pi else Real.arctan (y / x) - Real.pi)
  else
    (if 0 < y then Real.pi / 2 else if y < 0 then -(Real.pi / 2) else 0)

/-- `haversine_distance` (server.py lines 369–379): great-circle distance in
kilometers between two `(lat, lng)` pairs, Earth radius 6371 km. -/
noncomputable def haversine_distance (coord1 coord2 : ℝ × ℝ) : ℝ :=
  let lat1 := radians coord1.1
  let lon1 := radians coord1.2
  let lat2 := radians coord2.1
  let lon2 := radians coord2.2
  let dlat := lat2 - lat1
  let dlon := lon2 - lon1
  let a := Real.sin (dlat / 2) ^ 2 +
    Real.cos lat1 * Real.cos lat2 * Real.sin (dlon / 2) ^ 2
  let c := 2 * Real.arcsin (Real.sqrt a)
  c * 6371

/-- `calculate_geographic_midpoint` (server.py lines 249–273): average the two
points as 3-D Cartesian unit vectors and convert back to `(lat, lng)`. -/
noncomputable def calculate_geographic_midpoint (location1 location2 : ℝ × ℝ) : ℝ × ℝ :=
  let lat1 := radians location1.1
  let lon1 := radians location1.2
  let lat2 := radians location2.1
  let lon2 := radians location2.2
  let x1 := Real.cos lat1 * Real.cos lon1
  let y1 := Real.cos lat1 * Real.sin lon1
  let z1 := Real.sin lat1
  let x2 := Real.cos lat2 * Real.cos lon2
  let y2 := Real.cos lat2 * Real.sin lon2
  let z2 := Real.sin lat2
  let x := (x1 + x2) / 2
  let y := (y1 + y2) / 2
  let z := (z1 + z2) / 2
  let hyp := Real.sqrt (x * x + y * y)
  (degrees (atan2 z hyp), degrees (atan2 y x))

/-- The *effective* `calculate_midpoint_and_radius` (server.py lines 381–416):
no identical-point shortcut; raises `ValueError` (embedded as `Except.error`
carrying the offending distance) above 1000 km; returns
`(midpoint, int(radius), distance_km)`. -/
noncomputable def calculate_midpoint_and_radius (location1 location2 : ℝ × ℝ) :
    Except ℝ ((ℝ × ℝ) × ℤ × ℝ) :=
  let distance_km := haversine_distance location1 location2
  if distance_km > 1000 then Except.error distance_km
  else Except.ok (calculate_geographic_midpoint location1 location2,
    pyIntR (smart_radius distance_km), distance_km)

/-- The *shadowed* `calculate_midpoint_and_radius` (server.py lines 116–186):
identical points short-circuit to `(location1, 5000)`; above 1000 km raises
`ValueError`; otherwise returns `(midpoint, int(radius))` with the five-band
radius. -/
noncomputable def calculate_midpoint_and_radius_v1 (location1 location2 : ℝ × ℝ) :
    Except ℝ ((ℝ × ℝ) × ℤ) :=
  if location1 = location2 then Except.ok (location1, 5000)
  else
    let distance_km := haversine_distance location1 location2
    if distance_km > 1000 then Except.error distance_km
    else Except.ok (calculate_geographic_midpoint location1 location2,
      pyIntR (smart_radius_v1 distance_km))

/-- The haversine distance of a point to itself is zero. -/
theorem haversine_distance_self (p : ℝ × ℝ) : haversine_distance p p = 0 := by
  simp [haversine_distance]

/-- C1.  The claim holds of the shadowed `calculate_midpoint_and_radius`
(server.py lines 116–186): identical points yield that exact point with the
fixed 5000 m radius, and a distance above 1000 km yields the distinguishable
`ValueError`.  But the module's *effective* definition (lines 381–416, which
shadows the earlier one) has no identical-point shortcut: at the failing input
`location1 = location2 = (0, 0)` it instead returns that point with radius
`int(min(4800, 0·1000·0.6)) = 0`, not 5000. -/
theorem midpoint_gate_identical_and_refusal :
    (∀ p : ℝ × ℝ, calculate_midpoint_and_radius_v1 p p = Except.ok (p, 5000)) ∧
    (∀ p q : ℝ × ℝ, haversine_distance p q > 1000 →
      calculate_midpoint_and_radius_v1 p q = Except.error (haversine_distance p q) ∧
      calculate_midpoint_and_radius p q = Except.error (haversine_distance p q)) ∧
    calculate_midpoint_and_radius (0, 0) (0, 0) = Except.ok ((0, 0), 0, 0) ∧
    (0 : ℤ) ≠ 5000 := by
  refine ⟨?_, ?_, ?_, by norm_num⟩
  · intro p
    simp [calculate_midpoint_and_radius_v1]
  · intro p q h
    have hpq : p ≠ q := by
      intro he
      rw [he, haversine_distance_self] at h
      norm_num at h
    constructor
    · simp [calculate_midpoint_and_radius_v1, hpq, h]
    · simp [calculate_midpoint_and_radius, h]
  · have hh : haversine_distance (0, 0) (0, 0) = 0 := haversine_distance_self _
    have hmid : calculate_geographic_midpoint (0, 0) (0, 0) = ((0, 0) : ℝ × ℝ) := by
      norm_num [calculate_geographic_midpoint, radians, degrees, atan2]
    have hrad : smart_radius (0 : ℝ) = 0 := by
      rw [smart_radius, if_pos (by norm_num)]
      norm_num
    simp only [calculate_midpoint_and_radius, hh, hmid, hrad]
    norm_num [pyIntR]

/-- Witness for `midpoint_gate_identical_and_refusal`: the equator points
`(0, 0)` and `(0, 180)` are half the globe apart (6371·π km > 1000 km), and
both versions refuse. -/
theorem midpoint_gate_identical_and_refusal_witness :
    haversine_distance (0, 0) (0, 180) > 1000 ∧
    calculate_midpoint_and_radius (0, 0) (0, 180) =
      Except.error (haversine_distance (0, 0) (0, 180)) := by
  have h180 : radians 180 = Real.pi := by
    rw [radians]
    field_simp
  have hd : haversine_distance (0, 0) (0, 180) = Real.pi * 6371 := by
    rw [haversine_distance]
    simp only [h180]
    norm_num [radians, Real.sqrt_one, Real.arcsin_one, Real.sin_pi_div_two]
    ring
  have hgt : haversine_distance (0, 0) (0, 180) > 1000 := by
    rw [hd]
    nlinarith [Real.pi_gt_three]
  exact ⟨hgt, (midpoint_gate_identical_and_refusal.2.1 (0, 0) (0, 180) hgt).2⟩

/-! ## Destination-city ranking (server.py)

The *effective* `find_destination_cities` (server.py lines 442–469) scores
every candidate of `DESTINATION_CITIES` by
`1000 / (dist1 + dist2) - (|dist1 - dist2| / max dist1 dist2) * 100`, sorts
descending and takes the top `count`.  The *shadowed* version (lines 188–247)
instead combines `fairness·0.4 + midpoint_proximity·0.3 +
travel_efficiency·0.3` and adds a flat `+10` for hub cities (names containing
"UK"/"Iceland"/"AK"/"Dubai" in `MAJOR_DESTINATIONS`).  The per-candidate
scores are pure arithmetic in the per-person distances, embedded here over
`ℚ`. -/

/-- Whether `needle` occurs as a contiguous sublist of `haystack`. -/
def containsSub (needle haystack : List Char) : Bool :=
  match haystack with
  | [] => needle.isEmpty
  | c :: t => needle.isPrefixOf (c :: t) || containsSub needle t

/-- Python `needle in haystack` on strings: substring containment. -/
def strContains (haystack needle : String) : Bool :=
  containsSub needle.data haystack.data

/-- Per-candidate score of the *effective* `find_destination_cities`
(server.py lines 448–454), as a function of the two per-person distances. -/
def destination_score (dist1 dist2 : ℚ) : ℚ :=
  let total_dist := dist1 + dist2
  let fairness := |dist1 - dist2| / max dist1 dist2
  1000 / total_dist - fairness * 100

/-- Hub test of the *shadowed* `find_destination_cities`
(server.py line 228). -/
def is_hub_city (city_name : String) : Bool :=
  strContains city_name "UK" || strContains city_name "Iceland" ||
  strContains city_name "AK" || strContains city_name "Dubai"

/-- Per-candidate score of the *shadowed* `find_destination_cities`
(server.py lines 205–241): weighted fairness / midpoint-proximity /
travel-efficiency combination plus the flat hub bonus.  This is exactly the
composite formula asserted by the claim. -/
def destination_score_v1 (dist1 dist2 midpoint_distance total_distance : ℚ)
    (city_name : String) : ℚ :=
  let max_dist := max dist1 dist2
  let min_dist := min dist1 dist2
  let fairness_score := if max_dist > 0 then min_dist / max_dist * 100 else 100
  let midpoint_score := max 0 (100 - midpoint_distance / 100)
  let total_travel := dist1 + dist2
  let travel_efficiency :=
    max 0 (100 - (total_travel - total_distance) / total_distance * 100)
  let combined_score :=
    fairness_score * (4/10) + midpoint_score * (3/10) + travel_efficiency * (3/10)
  let hub_bonus : ℚ := if is_hub_city city_name then 10 else 0
  combined_score + hub_bonus

/-- `DESTINATION_CITIES` (server.py lines 419–440): the fixed candidate list
used by the effective `find_destination_cities`. -/
def DESTINATION_CITIES : List (String × ℚ × ℚ) :=
  [("New York, NY", 40.7128, -74.0060),
   ("Los Angeles, CA", 34.0522, -118.2437),
   ("Chicago, IL", 41.8781, -87.6298),
   ("Miami, FL", 25.7617, -80.1918),
   ("Las Vegas, NV", 36.1699, -115.1398),
   ("San Francisco, CA", 37.7749, -122.4194),
   ("Seattle, WA", 47.6062, -122.3321),
   ("Nashville, TN", 36.1627, -86.7816),
   ("Austin, TX", 30.2672, -97.7431),
   ("Denver, CO", 39.7392, -104.9903),
   ("Boston, MA", 42.3601, -71.0589),
   ("Atlanta, GA", 33.7490, -84.3880),
   ("Phoenix, AZ", 33.4484, -112.0740),
   ("Portland, OR", 45.5152, -122.6784),
   ("San Diego, CA", 32.7157, -117.1611),
   ("Washington, DC", 38.9072, -77.0369),
   ("Philadelphia, PA", 39.9526, -75.1652),
   ("New Orleans, LA", 29.9511, -90.0715),
   ("Charleston, SC", 32.7765, -79.9311),
   ("Savannah, GA", 32.0835, -81.0998)]

/-- C4.  The claim describes the *shadowed* `find_destination_cities`
(weighted 0.4/0.3/0.3 composite plus +10 hub bonus over `MAJOR_DESTINATIONS`);
the module's *effective* definition scores candidates by a different formula
with no bonus.  At the failing input — per-person distances 500 km each, a
candidate at the true midpoint, direct distance 1000 km — the claimed
composite is 100 (110 for a hub), while the code computes 1; moreover none of
the designated hub cities (London, Reykjavik, Anchorage, Dubai) even occur in
the effective candidate list `DESTINATION_CITIES`. -/
theorem find_destination_cities_score_diverges :
    destination_score 500 500 = 1 ∧
    destination_score_v1 500 500 0 1000 "New York, NY" = 100 ∧
    destination_score_v1 500 500 0 1000 "London, UK" = 110 ∧
    destination_score 500 500 ≠ destination_score_v1 500 500 0 1000 "New York, NY" ∧
    (∀ c ∈ DESTINATION_CITIES,
      strContains c.1 "London" = false ∧ strContains c.1 "Reykjavik" = false ∧
      strContains c.1 "Anchorage" = false ∧ strContains c.1 "Dubai" = false) := by
  have hny : is_hub_city "New York, NY" = false := by decide
  have hlo : is_hub_city "London, UK" = true := by decide
  refine ⟨?_, ?_, ?_, ?_, by decide⟩
  · simp only [destination_score]
    norm_num
  · simp only [destination_score_v1, hlo, hny]
    norm_num
  · simp only [destination_score_v1, hlo, hny]
    norm_num
  · simp only [destination_score, destination_score_v1, hlo, hny]
    norm_num

/-! ## Templated activity generation (server.py lines 694–753)

`generate_activities` builds the activity list for `/api/generate-date` from a
fixed per-event-type template library, decorates it by vibes, distributes the
budget (the cost loop runs over the *full* template, before trimming), and
trims to `max(1, time_available // 2)` entries.  The decoration strings are
embedded byte-for-byte as they appear in the source file (the source contains
the mojibake characters U+00F0 U+0178 …, not the original emoji). -/

/-- One templated activity entry (the dicts of `base_activities`, server.py
lines 698–726, plus the `estimated_cost`/`location` fields added by the cost
loop at lines 742–747). -/
structure Activity where
  time : String
  activity : String
  type : String
  duration : ℚ
  estimated_cost : ℤ := 0
  location : ℚ × ℚ := (0, 0)

/-- In-place update of the `i`-th element of a list (Python `lst[i][...] = …`
on the aliased template list). -/
def modifyAt {α : Type} (l : List α) (i : ℕ) (f : α → α) : List α :=
  match l, i with
  | [], _ => []
  | a :: t, 0 => f a :: t
  | a :: t, n + 1 => a :: modifyAt t n f

/-- `base_activities.get(event_type, base_activities["casual_dating"])`
(server.py lines 698–728): the five-key template library with fallback to
`"casual_dating"`. -/
def base_activities_get (event_type : String) : List Activity :=
  if event_type = "first_date" then
    [{ time := "6:00 PM", activity := "Coffee & Conversation", type := "cafe", duration := 1.5 },
     { time := "7:30 PM", activity := "Mini Golf Fun", type := "entertainment", duration := 1.5 },
     { time := "9:00 PM", activity := "Dessert & Walk", type := "restaurant", duration := 1 }]
  else if event_type = "married_date" then
    [{ time := "5:00 PM", activity := "Couples Spa", type := "spa", duration := 2 },
     { time := "7:00 PM", activity := "Fine Dining", type := "restaurant", duration := 2 },
     { time := "9:00 PM", activity := "Dancing & Drinks", type := "night_club", duration := 2 }]
  else if event_type = "friends_night" then
    [{ time := "6:00 PM", activity := "Group Activity", type := "bowling_alley", duration := 2 },
     { time := "8:00 PM", activity := "Dinner & Drinks", type := "bar", duration := 2 },
     { time := "10:00 PM", activity := "Late Night Fun", type := "night_club", duration := 2 }]
  else if event_type = "family_outing" then
    [{ time := "11:00 AM", activity := "Family Activity", type := "museum", duration := 2 },
     { time := "1:00 PM", activity := "Lunch Together", type := "restaurant", duration := 1.5 },
     { time := "2:30 PM", activity := "Outdoor Fun", type := "park", duration := 2 },
     { time := "4:30 PM", activity := "Treats & Relaxation", type := "cafe", duration := 1 }]
  else
    [{ time := "2:00 PM", activity := "Lunch Together", type := "restaurant", duration := 1.5 },
     { time := "3:30 PM", activity := "Activity Time", type := "entertainment", duration := 2 },
     { time := "5:30 PM", activity := "Drinks & Appetizers", type := "bar", duration := 1.5 },
     { time := "7:00 PM", activity := "Live Entertainment", type := "entertainment", duration := 2 }]

/-- `generate_activities` (server.py lines 694–753). -/
def generate_activities (event_type : String) (budget : ℤ) (vibes : List String)
    (location : ℚ × ℚ) (time_available : ℤ) : List Activity :=
  let activities := base_activities_get event_type
  let activities := if vibes.contains "romantic" then
      modifyAt activities 0
        (fun a => { a with activity := "ðŸŒ¹ " ++ a.activity })
    else activities
  let activities := if vibes.contains "adventurous" ∧ activities.length > 2 then
      modifyAt activities 2 (fun a =>
        { a with type := "tourist_attraction",
                 activity := "ðŸŽ¯ Adventure Activity" })
    else activities
  let activities := if vibes.contains "cultural" ∧ activities.length > 1 then
      modifyAt activities 1 (fun a =>
        { a with type := "art_gallery",
                 activity := "ðŸŽ¨ Cultural Experience" })
    else activities
  let cost_per_activity : ℚ :=
    if activities.length ≠ 0 then (budget : ℚ) / activities.length else 50
  let activities := activities.enum.map (fun p =>
    { p.2 with
      estimated_cost :=
        min (pyInt (cost_per_activity * (if p.1 = 1 then 1.2 else 1)))
          (pyFloorDiv budget 2),
      location := (location.1 + p.1 * (5/1000), location.2 + p.1 * (5/1000)) })
  let max_activities := max 1 (pyFloorDiv time_available 2)
  activities.take max_activities.toNat

/-- `modifyAt` preserves the list length. -/
theorem modifyAt_length {α : Type} (l : List α) (i : ℕ) (f : α → α) :
    (modifyAt l i f).length = l.length := by
  induction l generalizing i with
  | nil => rfl
  | cons a t ih =>
    cases i with
    | zero => rfl
    | succ n => simp [modifyAt, ih]

/-- C9.  The end-to-end templated scenario: `event_type = "casual_dating"`,
`budget = 100`, `vibes = ["romantic"]`, `time_available = 4` yields exactly
`max(1, 4 // 2) = 2` activities; the first title carries the romantic
decoration prefix, and every estimated cost is at most `budget // 2 = 50`
(the costs are 25 and `int(25·1.2) = 30`). -/
theorem generate_activities_casual_romantic_scenario :
    generate_activities "casual_dating" 100 ["romantic"] (0, 0) 4 =
      [{ time := "2:00 PM", activity := "ðŸŒ¹ Lunch Together",
         type := "restaurant", duration := 1.5, estimated_cost := 25, location := (0, 0) },
       { time := "3:30 PM", activity := "Activity Time", type := "entertainment",
         duration := 2, estimated_cost := 30, location := (1/200, 1/200) }] ∧
    generate_activities "casual_dating" 100 ["romantic"] (0, 0) 4 ≠ [] ∧
    (generate_activities "casual_dating" 100 ["romantic"] (0, 0) 4).length = 2 ∧
    pyFloorDiv 100 2 = 50 ∧
    ∀ a ∈ generate_activities "casual_dating" 100 ["romantic"] (0, 0) 4,
      a.estimated_cost ≤ 50 := by
  have hev : generate_activities "casual_dating" 100 ["romantic"] (0, 0) 4 =
      [{ time := "2:00 PM", activity := "ðŸŒ¹ Lunch Together",
         type := "restaurant", duration := 1.5, estimated_cost := 25, location := (0, 0) },
       { time := "3:30 PM", activity := "Activity Time", type := "entertainment",
         duration := 2, estimated_cost := 30, location := (1/200, 1/200) }] := by
    have hfd4 : Int.fdiv 4 2 = 2 := by decide
    have hfd100 : Int.fdiv 100 2 = 50 := by decide
    simp [generate_activities, base_activities_get, modifyAt, pyInt, pyFloorDiv,
      hfd4, hfd100, List.enum, List.enumFrom]
    norm_num
  refine ⟨hev, ?_, ?_, by decide, ?_⟩
  · rw [hev]
    simp
  · rw [hev]
    simp
  · intro a ha
    rw [hev] at ha
    simp only [List.mem_cons, List.not_mem_nil, or_false] at ha
    rcases ha with h | h <;> subst h <;> norm_num

/-- The length of a generated activity list: the template's length trimmed to
`max(1, time_available // 2)`. -/
theorem generate_activities_length (event_type : String) (budget : ℤ)
    (vibes : List String) (location : ℚ × ℚ) (time_available : ℤ) :
    (generate_activities event_type budget vibes location time_available).length =
      min (max 1 (pyFloorDiv time_available 2)).toNat
        (base_activities_get event_type).length := by
  simp only [generate_activities, List.length_take, List.length_map,
    List.enum_length]
  congr 1
  split_ifs <;> simp [modifyAt_length]

/-- C10.  An `event_type` that is none of the five template keys falls back to
the `"casual_dating"` template instead of failing: the produced list equals
the one produced for `"casual_dating"`, and it is non-empty. -/
theorem generate_activities_unknown_event_type_falls_back
    (event_type : String) (budget : ℤ) (vibes : List String)
    (location : ℚ × ℚ) (time_available : ℤ)
    (h : event_type ∉ ["first_date", "casual_dating", "married_date",
      "friends_night", "family_outing"])
    (ht : 1 ≤ time_available) :
    generate_activities event_type budget vibes location time_available =
      generate_activities "casual_dating" budget vibes location time_available ∧
    generate_activities event_type budget vibes location time_available ≠ [] := by
  have h' : event_type ≠ "first_date" ∧ event_type ≠ "casual_dating" ∧
      event_type ≠ "married_date" ∧ event_type ≠ "friends_night" ∧
      event_type ≠ "family_outing" := by
    simpa [not_or] using h
  obtain ⟨h1, h2, h3, h4, h5⟩ := h'
  have hbase : base_activities_get event_type =
      base_activities_get "casual_dating" := by
    simp [base_activities_get, h1, h2, h3, h4, h5]
  have heq : generate_activities event_type budget vibes location time_available =
      generate_activities "casual_dating" budget vibes location time_available := by
    simp only [generate_activities, hbase]
  refine ⟨heq, ?_⟩
  intro hnil
  have hlen := congrArg List.length hnil
  rw [generate_activities_length, hbase] at hlen
  have hb4 : (base_activities_get "casual_dating").length = 4 := by
    simp [base_activities_get]
  rw [hb4] at hlen
  have hmax : (1:ℤ) ≤ max 1 (pyFloorDiv time_available 2) := le_max_left _ _
  have hnat : (1:ℤ).toNat ≤ (max 1 (pyFloorDiv time_available 2)).toNat :=
    Int.toNat_le_toNat hmax
  simp at hlen

/-- Witness for `generate_activities_unknown_event_type_falls_back`:
`"speed_dating"` is not a template key, yet the call still returns the
(non-empty) casual-dating list. -/
theorem generate_activities_unknown_event_type_falls_back_witness :
    "speed_dating" ∉ ["first_date", "casual_dating", "married_date",
      "friends_night", "family_outing"] ∧ (1:ℤ) ≤ 4 ∧
    generate_activities "speed_dating" 100 [] (0, 0) 4 =
      generate_activities "casual_dating" 100 [] (0, 0) 4 ∧
    generate_activities "speed_dating" 100 [] (0, 0) 4 ≠ [] :=
  ⟨by decide, by decide,
    (generate_activities_unknown_event_type_falls_back "speed_dating" 100 []
      (0, 0) 4 (by decide) (by decide)).1,
    (generate_activities_unknown_event_type_falls_back "speed_dating" 100 []
      (0, 0) 4 (by decide) (by decide)).2⟩

/-! ## Busy-status heuristic (utilities/map_tools.py lines 198–252)

`get_busy_status` inspects a Google-place dictionary.  The dictionary is
embedded as a record of the three keys the function reads plus a flag for any
further keys; `opening_hours = some h` means the `'opening_hours'` key is
present, and `h = some b` means it carries an `'open_now'` entry with value
`b`.  The current wall-clock reading (`datetime.now()`) is passed explicitly
as `(day_of_week, hour)` with Monday = 0, as in Python's `weekday()`. -/

/-- The keys of a place dictionary that `get_busy_status` reads. -/
structure PlaceInfo where
  opening_hours : Option (Option Bool)
  rating : Option ℚ
  user_ratings_total : Option ℤ
  has_other_fields : Bool

/-- Python truthiness of the place dictionary (`if not place: return ""`):
true iff the dictionary has at least one key. -/
def placeTruthy (p : PlaceInfo) : Bool :=
  p.opening_hours.isSome || p.rating.isSome || p.user_ratings_total.isSome ||
    p.has_other_fields

/-- The `busy_times` table (map_tools.py lines 228–238) with the `.get(day, [])`
default for out-of-range keys. -/
def busy_times (day : ℕ) : List ℕ :=
  if day = 0 then [12, 13, 17, 18, 19]
  else if day = 1 then [12, 13, 17, 18, 19]
  else if day = 2 then [12, 13, 17, 18, 19]
  else if day = 3 then [12, 13, 17, 18, 19]
  else if day = 4 then [12, 13, 17, 18, 19, 20]
  else if day = 5 then [10, 11, 12, 13, 14, 18, 19, 20]
  else if day = 6 then [10, 11, 12, 13, 14, 17, 18]
  else []

/-- `get_busy_status` (map_tools.py lines 198–252). -/
def get_busy_status (place : PlaceInfo) (day_of_week hour : ℕ) : String :=
  if placeTruthy place = false then ""
  else
    let is_open := match place.opening_hours with
      | some (some b) => b
      | _ => false
    if is_open = false then "Currently closed"
    else
      let rating := place.rating.getD 0
      let total_ratings := place.user_ratings_total.getD 0
      if hour ∈ busy_times day_of_week then
        if rating > 4.5 ∧ total_ratings > 100 then "Likely very busy right now"
        else if rating > 4 then "Might be busy right now"
        else "Moderately busy right now"
      else "Likely not too busy right now"

/-- C8, counterexample.  A place record that has no opening-hours data at all
but is not the empty dictionary (here: a rating of 5 with 500 ratings) yields
`"Currently closed"`, not the empty label the claim asserts. -/
theorem get_busy_status_no_hours_counterexample :
    get_busy_status
      { opening_hours := none, rating := some 5, user_ratings_total := some 500,
        has_other_fields := true } 4 18 = "Currently closed" ∧
    "Currently closed" ≠ "" := by
  exact ⟨rfl, by decide⟩

/-- C8, amended.  The `get_busy_status` rules: a present `open_now = false`
flag — and likewise a nonempty record whose opening-hours data is missing or
lacks `open_now` — yields `"Currently closed"` regardless of time; the empty
record yields the empty label; an open place in a busy hour of the fixed
per-day table yields `"Likely very busy right now"` when rating > 4.5 and
total ratings > 100, else `"Might be busy right now"` when rating > 4.0, else
`"Moderately busy right now"`; an open place outside busy hours yields
`"Likely not too busy right now"`. -/
theorem get_busy_status_rules :
    (∀ (p : PlaceInfo) (day hour : ℕ), p.opening_hours = some (some false) →
      get_busy_status p day hour = "Currently closed") ∧
    (∀ (p : PlaceInfo) (day hour : ℕ), placeTruthy p = true →
      (p.opening_hours = none ∨ p.opening_hours = some none) →
      get_busy_status p day hour = "Currently closed") ∧
    (∀ day hour : ℕ,
      get_busy_status
        { opening_hours := none, rating := none, user_ratings_total := none,
          has_other_fields := false } day hour = "") ∧
    (∀ (p : PlaceInfo) (day hour : ℕ), p.opening_hours = some (some true) →
      hour ∈ busy_times day →
      ((p.rating.getD 0 > 4.5 ∧ p.user_ratings_total.getD 0 > 100 →
          get_busy_status p day hour = "Likely very busy right now") ∧
       (¬ (p.rating.getD 0 > 4.5 ∧ p.user_ratings_total.getD 0 > 100) →
          p.rating.getD 0 > 4 →
          get_busy_status p day hour = "Might be busy right now") ∧
       (¬ (p.rating.getD 0 > 4.5 ∧ p.user_ratings_total.getD 0 > 100) →
          ¬ p.rating.getD 0 > 4 →
          get_busy_status p day hour = "Moderately busy right now"))) ∧
    (∀ (p : PlaceInfo) (day hour : ℕ), p.opening_hours = some (some true) →
      hour ∉ busy_times day →
      get_busy_status p day hour = "Likely not too busy right now") := by
  refine ⟨?_, ?_, ?_, ?_, ?_⟩
  · intro p day hour h
    simp [get_busy_status, placeTruthy, h]
  · intro p day hour ht h
    rcases h with h | h <;> simp [get_busy_status, ht, h]
  · intro day hour
    simp [get_busy_status, placeTruthy]
  · intro p day hour ho hbusy
    refine ⟨?_, ?_, ?_⟩
    · intro h
      simp [get_busy_status, placeTruthy, ho, hbusy, h]
    · intro h h4
      simp [get_busy_status, placeTruthy, ho, hbusy, h, h4]
    · intro h h4
      simp [get_busy_status, placeTruthy, ho, hbusy, h, h4]
  · intro p day hour ho hbusy
    simp [get_busy_status, placeTruthy, ho, hbusy]

/-- Witness for `get_busy_status_rules`: a place with `open_now = true`,
rating 4.6 and 150 total ratings, evaluated at Friday 18:00, is
"Likely very busy right now"; the same record with `open_now = false` is
"Currently closed". -/
theorem get_busy_status_rules_witness :
    get_busy_status
      { opening_hours := some (some true), rating := some 4.6,
        user_ratings_total := some 150, has_other_fields := true } 4 18 =
      "Likely very busy right now" ∧
    get_busy_status
      { opening_hours := some (some false), rating := some 4.6,
        user_ratings_total := some 150, has_other_fields := true } 4 18 =
      "Currently closed" :=
  ⟨((get_busy_status_rules.2.2.2.1 _ 4 18 rfl (by decide)).1 (by norm_num)),
   get_busy_status_rules.1 _ 4 18 rfl⟩

/-! ## Shared-plan persistence (server.py lines 297–364 and 1063–1083)

The SQLite table `shared_date_plans` is embedded as a list of rows and
`CURRENT_TIMESTAMP` is passed explicitly as `now`.  `get_shared_date_plan`
performs the `WHERE id = ? AND (expires_at IS NULL OR expires_at >
CURRENT_TIMESTAMP)` fetch; `increment_view_count` is the only UPDATE
statement in the code base (the only other write is the INSERT of
`create_shared_date`), and the `/api/shared/{share_id}` endpoint
`get_shared_date` composes them, a missing or expired plan becoming an HTTP
404 (embedded as `none`). -/

/-- One row of `shared_date_plans` (schema at server.py lines 302–316). -/
structure PlanRow where
  id : String
  title : String
  activities : String
  location : String
  date_location : Option String
  budget : ℤ
  event_type : String
  vibes : String
  created_at : ℚ
  expires_at : Option ℚ
  view_count : ℤ

/-- The WHERE clause of `get_shared_date_plan` (server.py lines 331–336). -/
def planMatches (now : ℚ) (share_id : String) (r : PlanRow) : Bool :=
  r.id == share_id &&
    (match r.expires_at with
     | none => true
     | some t => now < t)

/-- `get_shared_date_plan` (server.py lines 325–356): the first row passing
the id-and-not-expired filter, if any. -/
def get_shared_date_plan (db : List PlanRow) (now : ℚ) (share_id : String) :
    Option PlanRow :=
  db.find? (planMatches now share_id)

/-- `increment_view_count` (server.py lines 358–364): add 1 to `view_count`
of every row whose id matches (the id is the primary key, so at most one). -/
def increment_view_count (db : List PlanRow) (share_id : String) : List PlanRow :=
  db.map (fun r =>
    if r.id == share_id then { r with view_count := r.view_count + 1 } else r)

/-- The endpoint `get_shared_date` (server.py lines 1063–1083): fetch, 404 on
absence, otherwise increment the view count; returns the response paired with
the post-request store. -/
def get_shared_date (db : List PlanRow) (now : ℚ) (share_id : String) :
    Option PlanRow × List PlanRow :=
  match get_shared_date_plan db now share_id with
  | none => (none, db)
  | some plan => (some plan, increment_view_count db share_id)

/-- C7.  (i) A fetch returns a record only if it is stored, has the requested
id, and its `expires_at` is null or strictly in the future; (ii) when every
stored row with the requested id is expired — which vacuously covers a
nonexistent id — the endpoint's result is the identical not-found outcome
`(none, db)`, so expired and nonexistent ids are indistinguishable; (iii) a
successful fetch-for-display returns the plan and applies
`increment_view_count` to the store; (iv) that update adds exactly one to the
`view_count` of the rows with the requested id and leaves every other row —
and every other field — unchanged. -/
theorem shared_plan_fetch_expiry_view_count :
    (∀ (db : List PlanRow) (now : ℚ) (sid : String) (p : PlanRow),
      get_shared_date_plan db now sid = some p →
      p ∈ db ∧ p.id = sid ∧
        (p.expires_at = none ∨ ∃ t, p.expires_at = some t ∧ now < t)) ∧
    (∀ (db : List PlanRow) (now : ℚ) (sid : String),
      (∀ r ∈ db, r.id = sid → ∃ t, r.expires_at = some t ∧ t ≤ now) →
      get_shared_date db now sid = (none, db)) ∧
    (∀ (db : List PlanRow) (now : ℚ) (sid : String) (p : PlanRow),
      get_shared_date_plan db now sid = some p →
      get_shared_date db now sid = (some p, increment_view_count db sid)) ∧
    (∀ (db : List PlanRow) (sid : String),
      List.Forall₂ (fun r r' =>
        (r.id = sid → r' = { r with view_count := r.view_count + 1 }) ∧
        (r.id ≠ sid → r' = r)) db (increment_view_count db sid)) := by
  refine ⟨?_, ?_, ?_, ?_⟩
  · intro db now sid p h
    have hmem : p ∈ db := List.mem_of_find?_eq_some h
    have hm : planMatches now sid p = true := List.find?_some h
    simp only [planMatches, Bool.and_eq_true, beq_iff_eq] at hm
    refine ⟨hmem, hm.1, ?_⟩
    rcases he : p.expires_at with - | t
    · exact Or.inl rfl
    · refine Or.inr ⟨t, rfl, ?_⟩
      have := hm.2
      rw [he] at this
      simpa using this
  · intro db now sid h
    have hfind : get_shared_date_plan db now sid = none := by
      rw [get_shared_date_plan, List.find?_eq_none]
      intro r hr
      simp only [planMatches, Bool.and_eq_true, beq_iff_eq, not_and]
      intro hid
      obtain ⟨t, ht, hle⟩ := h r hr hid
      rw [ht]
      simp
      linarith
    rw [get_shared_date, hfind]
  · intro db now sid p h
    rw [get_shared_date, h]
  · intro db sid
    induction db with
    | nil => exact List.Forall₂.nil
    | cons r t ih =>
      refine List.Forall₂.cons ?_ ih
      by_cases hid : r.id = sid
      · simp [hid]
      · simp [hid]

/-- Witness for `shared_plan_fetch_expiry_view_count`: a one-row store whose
plan never expires is fetched (with its view count bumped from 0 to 1), and a
one-row store whose plan expired at time −1 yields, at time 0, the same
not-found outcome as the empty store. -/
theorem shared_plan_fetch_expiry_view_count_witness :
    get_shared_date_plan
      [{ id := "ab12cd34", title := "Casual Dating in Rome", activities := "[]",
         location := "Rome", date_location := none, budget := 100,
         event_type := "casual_dating", vibes := "[]", created_at := 0,
         expires_at := none, view_count := 0 }] 0 "ab12cd34" =
      some { id := "ab12cd34", title := "Casual Dating in Rome",
             activities := "[]", location := "Rome", date_location := none,
             budget := 100, event_type := "casual_dating", vibes := "[]",
             created_at := 0, expires_at := none, view_count := 0 } ∧
    get_shared_date
      [{ id := "ab12cd34", title := "Casual Dating in Rome", activities := "[]",
         location := "Rome", date_location := none, budget := 100,
         event_type := "casual_dating", vibes := "[]", created_at := 0,
         expires_at := none, view_count := 0 }] 0 "ab12cd34" =
      (some { id := "ab12cd34", title := "Casual Dating in Rome",
              activities := "[]", location := "Rome", date_location := none,
              budget := 100, event_type := "casual_dating", vibes := "[]",
              created_at := 0, expires_at := none, view_count := 0 },
       [{ id := "ab12cd34", title := "Casual Dating in Rome",
          activities := "[]", location := "Rome", date_location := none,
          budget := 100, event_type := "casual_dating", vibes := "[]",
          created_at := 0, expires_at := none, view_count := 1 }]) ∧
    get_shared_date
      [{ id := "zz99zz99", title := "Expired", activities := "[]",
         location := "Rome", date_location := none, budget := 0,
         event_type := "casual_dating", vibes := "[]", created_at := -2,
         expires_at := some (-1), view_count := 7 }] 0 "zz99zz99" =
      (none,
       [{ id := "zz99zz99", title := "Expired", activities := "[]",
          location := "Rome", date_location := none, budget := 0,
          event_type := "casual_dating", vibes := "[]", created_at := -2,
          expires_at := some (-1), view_count := 7 }]) := by
  have h1 : get_shared_date_plan
      [{ id := "ab12cd34", title := "Casual Dating in Rome", activities := "[]",
         location := "Rome", date_location := none, budget := 100,
         event_type := "casual_dating", vibes := "[]", created_at := 0,
         expires_at := none, view_count := 0 }] 0 "ab12cd34" =
      some { id := "ab12cd34", title := "Casual Dating in Rome",
             activities := "[]", location := "Rome", date_location := none,
             budget := 100, event_type := "casual_dating", vibes := "[]",
             created_at := 0, expires_at := none, view_count := 0 } := by
    simp [get_shared_date_plan, planMatches]
  refine ⟨h1, ?_, ?_⟩
  · have h2 := shared_plan_fetch_expiry_view_count.2.2.1 _ 0 "ab12cd34" _ h1
    rw [h2]
    simp [increment_view_count]
  · exact shared_plan_fetch_expiry_view_count.2.1 _ 0 "zz99zz99"
      (by
        intro r hr _
        simp at hr
        subst hr
        exact ⟨-1, rfl, by norm_num⟩)

/-! ## Narrative parsing in `generate_date_ideas` (utilities/openai_tools.py)

The narrative returned by the language provider is parsed with three regular
expressions:

* `### Timeline:(.*?)(?=###|$)` with `re.DOTALL` (line 222), scanned by
  `re.findall` (line 223) and erased by `re.sub` (line 458);
* `## Event Idea: (.*?)[\r\n]` (line 406), scanned by `re.findall` (407);
* the pairing `titles[i] if i < len(titles) else f"Event Idea {i+1}"`
  (line 411).

They are embedded as recursive scanners over `List Char` with Python `re`
semantics: leftmost non-overlapping matches; the non-greedy capture stops at
the first position where the lookahead holds; without `re.MULTILINE`, `$`
matches at the end of the input and also just before a single trailing
newline. -/

/-- Leftmost occurrence of `pat`: `some (before, after)` splits
`s = before ++ pat ++ after` at the first match. -/
def splitFirst (pat : List Char) : List Char → Option (List Char × List Char)
  | [] => if pat.isEmpty then some ([], []) else none
  | c :: cs =>
    if pat.isPrefixOf (c :: cs) then some ([], (c :: cs).drop pat.length)
    else (splitFirst pat cs).map (fun p => (c :: p.1, p.2))

/-- A pattern is a prefix of itself followed by anything. -/
theorem isPrefixOf_append_self (pat s : List Char) :
    pat.isPrefixOf (pat ++ s) = true := by
  induction pat with
  | nil => simp [List.isPrefixOf]
  | cons c t ih => simp [List.isPrefixOf, ih]

/-- Splitting off a successful prefix test. -/
theorem append_drop_of_isPrefixOf {pat s : List Char}
    (h : pat.isPrefixOf s = true) : pat ++ s.drop pat.length = s := by
  induction pat generalizing s with
  | nil => simp
  | cons c t ih =>
    cases s with
    | nil => simp [List.isPrefixOf] at h
    | cons d ds =>
      simp only [List.isPrefixOf, Bool.and_eq_true, beq_iff_eq] at h
      simpa [h.1] using ih h.2

/-- A successful `splitFirst` is a decomposition of the input. -/
theorem splitFirst_some_append {pat s b a : List Char}
    (h : splitFirst pat s = some (b, a)) : s = b ++ pat ++ a := by
  induction s generalizing b with
  | nil =>
    by_cases hp : pat.isEmpty <;> simp [splitFirst, hp] at h
    rcases h with ⟨hb, ha⟩
    subst hb; subst ha
    simpa [List.isEmpty_iff] using hp
  | cons c cs ih =>
    by_cases hp : pat.isPrefixOf (c :: cs)
    · rw [splitFirst, if_pos hp] at h
      obtain ⟨hb, ha⟩ := Prod.mk.injEq .. ▸ Option.some.injEq .. ▸ h
      subst hb; subst ha
      simpa using (append_drop_of_isPrefixOf hp).symm
    · rw [splitFirst, if_neg hp] at h
      rcases Option.map_eq_some'.mp h with ⟨p, hp2, hpe⟩
      obtain ⟨hb, ha⟩ := Prod.mk.injEq .. ▸ hpe
      subst hb; subst ha
      simpa using congrArg (c :: ·) (ih hp2)

/-- `"### Timeline:"` as a character list (the exact heading of line 222). -/
def TL : List Char :=
  ['#', '#', '#', ' ', 'T', 'i', 'm', 'e', 'l', 'i', 'n', 'e', ':']

/-- `"## Event Idea: "` as a character list (the title pattern of line 406). -/
def TITLE : List Char :=
  ['#', '#', ' ', 'E', 'v', 'e', 'n', 't', ' ', 'I', 'd', 'e', 'a', ':', ' ']

/-- `"###"`: the lookahead that terminates a timeline capture. -/
def HHH : List Char := ['#', '#', '#']

/-- Whether the non-greedy capture of `(.*?)(?=###|$)` stops at this suffix:
either `"###"` follows, or we are at the end, or just before a single
trailing newline (Python `$`). -/
def tl_stop (s : List Char) : Bool :=
  HHH.isPrefixOf s || s.isEmpty || s == ['\n']

/-- The capture of `(.*?)(?=###|$)` in DOTALL mode: the shortest prefix whose
remainder satisfies the lookahead; returns `(capture, remainder)` — the
lookahead is not consumed. -/
def timeline_capture (s : List Char) : List Char × List Char :=
  if tl_stop s then ([], s)
  else
    match s with
    | [] => ([], [])
    | c :: cs => (c :: (timeline_capture cs).1, (timeline_capture cs).2)

/-- A timeline capture decomposes its input. -/
theorem timeline_capture_append (s : List Char) :
    (timeline_capture s).1 ++ (timeline_capture s).2 = s := by
  induction s with
  | nil => rfl
  | cons c cs ih =>
    by_cases hs : tl_stop (c :: cs)
    · rw [timeline_capture, if_pos hs]
      rfl
    · rw [timeline_capture, if_neg hs]
      simpa using ih

/-- The remainder of a capture is no longer than the input. -/
theorem timeline_capture_snd_length (s : List Char) :
    (timeline_capture s).2.length ≤ s.length := by
  conv_rhs => rw [← timeline_capture_append s]
  simp

/-- `re.findall(r'### Timeline:(.*?)(?=###|$)', content, re.DOTALL)`
(openai_tools.py lines 222–223): every captured timeline section. -/
def timeline_matches (s : List Char) : List (List Char) :=
  match h : splitFirst TL s with
  | none => []
  | some (_b, rest) =>
    (timeline_capture rest).1 :: timeline_matches (timeline_capture rest).2
termination_by s.length
decreasing_by
  have h1 := congrArg List.length (splitFirst_some_append h)
  have h2 := timeline_capture_snd_length rest
  have h3 : TL.length = 13 := rfl
  simp only [List.length_append, h3] at h1
  omega

/-- The capture of `(.*?)(?=###|$)` *without* `re.DOTALL`: `.` cannot cross a
newline, so the attempt fails (`none`) when a newline is reached before the
lookahead holds (a lone trailing newline is itself a `$` position). -/
def line_capture (s : List Char) : Option (List Char × List Char) :=
  if tl_stop s then some ([], s)
  else
    match s with
    | [] => some ([], [])
    | c :: cs =>
      if c = '\n' then none
      else (line_capture cs).map (fun p => (c :: p.1, p.2))

/-- A line capture never grows its input. -/
theorem line_capture_some_length {s a b : List Char}
    (h : line_capture s = some (a, b)) : b.length ≤ s.length := by
  induction s generalizing a with
  | nil =>
    rw [line_capture] at h
    simp only [tl_stop, HHH] at h
    simp at h
    simp [h.2]
  | cons c cs ih =>
    by_cases hs : tl_stop (c :: cs)
    · rw [line_capture, if_pos hs] at h
      obtain ⟨_, hb⟩ := Prod.mk.injEq .. ▸ Option.some.injEq .. ▸ h
      subst hb
      exact le_rfl
    · rw [line_capture, if_neg hs] at h
      by_cases hc : c = '\n'
      · simp [hc] at h
      · rw [if_neg hc] at h
        rcases Option.map_eq_some'.mp h with ⟨p, hp2, hpe⟩
        obtain ⟨_, hb⟩ := Prod.mk.injEq .. ▸ hpe
        subst hb
        exact Nat.le_succ_of_le (ih hp2)

/-- `re.sub(r'### Timeline:(.*?)(?=###|$)', '', content)` (line 458).  Note:
unlike the `findall` of line 223, this `re.sub` call passes **no**
`re.DOTALL` flag, so `.` cannot cross a newline; a heading whose same-line
remainder never reaches `###` or the end of input is not a match and
survives the substitution. -/
def remove_timelines (s : List Char) : List Char :=
  match h : splitFirst TL s with
  | none => s
  | some (b, rest) =>
    match h2 : line_capture rest with
    | some (_cap, r2) => b ++ remove_timelines r2
    | none => b ++ TL ++ remove_timelines rest
termination_by s.length
decreasing_by
  · have h1 := congrArg List.length (splitFirst_some_append h)
    have h4 := line_capture_some_length h2
    have h3 : TL.length = 13 := rfl
    simp only [List.length_append, h3] at h1
    omega
  · have h1 := congrArg List.length (splitFirst_some_append h)
    have h3 : TL.length = 13 := rfl
    simp only [List.length_append, h3] at h1
    omega

/-- The capture of `(.*?)[\r\n]`: text up to (and excluding) the first CR or
LF; `none` when no such character remains (the pattern then cannot match). -/
def title_capture : List Char → Option (List Char × List Char)
  | [] => none
  | c :: cs =>
    if c = '\r' ∨ c = '\n' then some ([], cs)
    else (title_capture cs).map (fun p => (c :: p.1, p.2))

/-- A successful title capture strictly shrinks the input. -/
theorem title_capture_some_length {s a b : List Char}
    (h : title_capture s = some (a, b)) : b.length < s.length := by
  induction s generalizing a with
  | nil => simp [title_capture] at h
  | cons c cs ih =>
    by_cases hc : c = '\r' ∨ c = '\n'
    · rw [title_capture, if_pos hc] at h
      obtain ⟨_, hb⟩ := Prod.mk.injEq .. ▸ Option.some.injEq .. ▸ h
      subst hb
      simp
    · rw [title_capture, if_neg hc] at h
      rcases Option.map_eq_some'.mp h with ⟨p, hp2, hpe⟩
      obtain ⟨_, hb⟩ := Prod.mk.injEq .. ▸ hpe
      subst hb
      exact Nat.lt_succ_of_lt (ih hp2)

/-- `re.findall(r'## Event Idea: (.*?)[\r\n]', content)` (lines 406–407). -/
def title_matches (s : List Char) : List (List Char) :=
  match h : splitFirst TITLE s with
  | none => []
  | some (_b, rest) =>
    match h2 : title_capture rest with
    | none => []
    | some (cap, r2) => cap :: title_matches r2
termination_by s.length
decreasing_by
  have h1 := congrArg List.length (splitFirst_some_append h)
  have h2 := title_capture_some_length h2
  have h3 : TITLE.length = 15 := rfl
  simp only [List.length_append, h3] at h1
  omega

/-- The ordinal fallback `f"Event Idea {i+1}"` (line 411). -/
def default_title (i : ℕ) : List Char :=
  "Event Idea ".data ++ (toString (i + 1)).data

/-- The title/timeline pairing of the rendering loop (lines 405–414):
timeline `i` is paired with `titles[i]` when it exists, otherwise with the
ordinal fallback. -/
def paired_timelines (content : List Char) : List (List Char × List Char) :=
  let titles := title_matches content
  (timeline_matches content).enum.map
    (fun p => (titles.getD p.1 (default_title p.1), p.2))

/-- Unfolding `timeline_matches` when no heading occurs. -/
theorem timeline_matches_of_none {s : List Char} (h : splitFirst TL s = none) :
    timeline_matches s = [] := by
  rw [timeline_matches.eq_def, h]

/-- Unfolding `timeline_matches` at the first heading occurrence. -/
theorem timeline_matches_of_some {s b rest : List Char}
    (h : splitFirst TL s = some (b, rest)) :
    timeline_matches s =
      (timeline_capture rest).1 :: timeline_matches (timeline_capture rest).2 := by
  rw [timeline_matches.eq_def, h]

/-- Unfolding `remove_timelines` when no heading occurs. -/
theorem remove_timelines_of_none {s : List Char} (h : splitFirst TL s = none) :
    remove_timelines s = s := by
  rw [remove_timelines.eq_def, h]

/-- Unfolding `remove_timelines` at a heading whose same-line lookahead
succeeds: the match is erased. -/
theorem remove_timelines_of_match {s b rest cap r2 : List Char}
    (h : splitFirst TL s = some (b, rest))
    (h2 : line_capture rest = some (cap, r2)) :
    remove_timelines s = b ++ remove_timelines r2 := by
  rw [remove_timelines.eq_def, h]
  show (match _h2 : line_capture rest with
    | some (cp, rr) => b ++ remove_timelines rr
    | none => b ++ TL ++ remove_timelines rest) = b ++ remove_timelines r2
  rw [h2]

/-- Unfolding `remove_timelines` at a heading whose match attempt fails (a
newline before any `###`/end): the heading survives. -/
theorem remove_timelines_of_failed {s b rest : List Char}
    (h : splitFirst TL s = some (b, rest)) (h2 : line_capture rest = none) :
    remove_timelines s = b ++ TL ++ remove_timelines rest := by
  rw [remove_timelines.eq_def, h]
  show (match _h2 : line_capture rest with
    | some (cp, rr) => b ++ remove_timelines rr
    | none => b ++ TL ++ remove_timelines rest) = b ++ TL ++ remove_timelines rest
  rw [h2]

/-- Unfolding `title_matches` when no title heading occurs. -/
theorem title_matches_of_none {s : List Char} (h : splitFirst TITLE s = none) :
    title_matches s = [] := by
  rw [title_matches.eq_def, h]

/-- Unfolding `title_matches` when the last title heading is not followed by
any CR/LF: the pattern cannot complete, and no further occurrence can
either. -/
theorem title_matches_of_no_newline {s b rest : List Char}
    (h : splitFirst TITLE s = some (b, rest)) (h2 : title_capture rest = none) :
    title_matches s = [] := by
  rw [title_matches.eq_def, h]
  show (match _h2 : title_capture rest with
    | none => []
    | some (cp, rr) => cp :: title_matches rr) = []
  rw [h2]

/-- Unfolding `title_matches` at a completed title match. -/
theorem title_matches_of_some {s b rest cap r2 : List Char}
    (h : splitFirst TITLE s = some (b, rest))
    (h2 : title_capture rest = some (cap, r2)) :
    title_matches s = cap :: title_matches r2 := by
  rw [title_matches.eq_def, h]
  show (match _h2 : title_capture rest with
    | none => []
    | some (cp, rr) => cp :: title_matches rr) = cap :: title_matches r2
  rw [h2]

/-- C5, counterexample.  On the narrative
`"## Date Idea: X\n### Timeline:\n- a\n## Event Idea: Y\n### Timeline:\n- b"`
the parser does yield exactly two timeline fragments, but (1) the first
fragment swallows the whole `## Event Idea: Y` block (the capture only stops
at `###` or the end), (2) the pairing is `["Y", "Event Idea 2"]`, not
`["X", "Y"]` — the title pattern never matches `## Date Idea:` headings —
and (3) the returned main narrative still contains both `### Timeline:`
sections verbatim, because the `re.sub` at line 458 is run without
`re.DOTALL` and matches nothing here. -/
theorem timeline_parsing_counterexample :
    timeline_matches
        ("## Date Idea: X\n### Timeline:\n- a\n## Event Idea: Y\n### Timeline:\n- b").data =
      ["\n- a\n## Event Idea: Y\n".data, "\n- b".data] ∧
    (paired_timelines
        ("## Date Idea: X\n### Timeline:\n- a\n## Event Idea: Y\n### Timeline:\n- b").data).map
        Prod.fst = ["Y".data, "Event Idea 2".data] ∧
    ¬ (paired_timelines
        ("## Date Idea: X\n### Timeline:\n- a\n## Event Idea: Y\n### Timeline:\n- b").data).map
        Prod.fst = ["X".data, "Y".data] ∧
    remove_timelines
        ("## Date Idea: X\n### Timeline:\n- a\n## Event Idea: Y\n### Timeline:\n- b").data =
      ("## Date Idea: X\n### Timeline:\n- a\n## Event Idea: Y\n### Timeline:\n- b").data ∧
    splitFirst TL
        (remove_timelines
          ("## Date Idea: X\n### Timeline:\n- a\n## Event Idea: Y\n### Timeline:\n- b").data) ≠
      none := by
  have e1 : splitFirst TL
      ("## Date Idea: X\n### Timeline:\n- a\n## Event Idea: Y\n### Timeline:\n- b").data =
      some ("## Date Idea: X\n".data,
        "\n- a\n## Event Idea: Y\n### Timeline:\n- b".data) := by rfl
  have c1 : timeline_capture "\n- a\n## Event Idea: Y\n### Timeline:\n- b".data =
      ("\n- a\n## Event Idea: Y\n".data, "### Timeline:\n- b".data) := by rfl
  have e2 : splitFirst TL "### Timeline:\n- b".data = some ([], "\n- b".data) := by rfl
  have c2 : timeline_capture "\n- b".data = ("\n- b".data, []) := by rfl
  have e3 : splitFirst TL ([] : List Char) = none := by rfl
  have htm : timeline_matches
      ("## Date Idea: X\n### Timeline:\n- a\n## Event Idea: Y\n### Timeline:\n- b").data =
      ["\n- a\n## Event Idea: Y\n".data, "\n- b".data] := by
    rw [timeline_matches_of_some e1, c1]
    rw [timeline_matches_of_some e2, c2]
    rw [timeline_matches_of_none e3]
  have t1 : splitFirst TITLE
      ("## Date Idea: X\n### Timeline:\n- a\n## Event Idea: Y\n### Timeline:\n- b").data =
      some ("## Date Idea: X\n### Timeline:\n- a\n".data,
        "Y\n### Timeline:\n- b".data) := by rfl
  have tc1 : title_capture "Y\n### Timeline:\n- b".data =
      some ("Y".data, "### Timeline:\n- b".data) := by rfl
  have t2 : splitFirst TITLE "### Timeline:\n- b".data = none := by rfl
  have httl : title_matches
      ("## Date Idea: X\n### Timeline:\n- a\n## Event Idea: Y\n### Timeline:\n- b").data =
      ["Y".data] := by
    rw [title_matches_of_some t1 tc1, title_matches_of_none t2]
  have hpair : (paired_timelines
      ("## Date Idea: X\n### Timeline:\n- a\n## Event Idea: Y\n### Timeline:\n- b").data).map
      Prod.fst = ["Y".data, "Event Idea 2".data] := by
    rw [paired_timelines, htm, httl]
    simp [List.enum, List.enumFrom, default_title]
    decide
  have l1 : line_capture "\n- a\n## Event Idea: Y\n### Timeline:\n- b".data = none := by rfl
  have l2 : line_capture "\n- b".data = none := by rfl
  have e4 : splitFirst TL "\n- a\n## Event Idea: Y\n### Timeline:\n- b".data =
      some ("\n- a\n## Event Idea: Y\n".data, "\n- b".data) := by rfl
  have e5 : splitFirst TL "\n- b".data = none := by rfl
  have hrm : remove_timelines
      ("## Date Idea: X\n### Timeline:\n- a\n## Event Idea: Y\n### Timeline:\n- b").data =
      ("## Date Idea: X\n### Timeline:\n- a\n## Event Idea: Y\n### Timeline:\n- b").data := by
    rw [remove_timelines_of_failed e1 l1]
    rw [remove_timelines_of_failed e4 l2]
    rw [remove_timelines_of_none e5]
    decide
  refine ⟨htm, hpair, ?_, hrm, ?_⟩
  · rw [hpair]
    decide
  · rw [hrm, e1]
    simp

/-- Scanning past one character that does not begin a match. -/
theorem splitFirst_cons_not {pat : List Char} {c : Char} {s : List Char}
    (h : pat.isPrefixOf (c :: s) = false) :
    splitFirst pat (c :: s) = (splitFirst pat s).map (fun p => (c :: p.1, p.2)) := by
  rw [splitFirst, if_neg (by simp [h])]

/-- Scanning past a run free of the pattern's first character. -/
theorem splitFirst_hashfree {q a s : List Char}
    (ha : ∀ c ∈ a, c ≠ '#') :
    splitFirst ('#' :: q) (a ++ s) =
      (splitFirst ('#' :: q) s).map (fun p => (a ++ p.1, p.2)) := by
  induction a with
  | nil =>
    cases hs : splitFirst ('#' :: q) s <;> simp [hs]
  | cons c t ih =>
    have hc : c ≠ '#' := ha c (List.mem_cons_self c t)
    have hp : ('#' :: q).isPrefixOf (c :: (t ++ s)) = false := by
      simp [List.isPrefixOf]
      intro he
      exact absurd he.symm hc
    rw [List.cons_append, splitFirst_cons_not hp,
      ih (fun x hx => ha x (List.mem_cons_of_mem c hx))]
    cases hs : splitFirst ('#' :: q) s <;> simp [hs]

/-- The pattern found at the scan position. -/
theorem splitFirst_at_self {pat s : List Char} (hne : pat ≠ []) :
    splitFirst pat (pat ++ s) = some ([], s) := by
  cases pat with
  | nil => exact absurd rfl hne
  | cons c q =>
    rw [List.cons_append, splitFirst,
      if_pos (by rw [← List.cons_append]; exact isPrefixOf_append_self (c :: q) s)]
    rw [← List.cons_append, List.drop_left]

/-- A non-stop position of the timeline capture. -/
theorem tl_stop_false_of {c : Char} {cs : List Char} (hc : c ≠ '#')
    (h2 : cs ≠ [] ∨ c ≠ '\n') : tl_stop (c :: cs) = false := by
  simp only [tl_stop, HHH, Bool.or_eq_false_iff]
  refine ⟨⟨?_, by simp⟩, ?_⟩
  · simp [List.isPrefixOf]
    intro he
    exact absurd he.symm hc
  · rcases h2 with h2 | h2
    · simp only [beq_eq_false_iff_ne, ne_eq, List.cons.injEq, not_and]
      intro _
      exact h2
    · simp only [beq_eq_false_iff_ne, ne_eq, List.cons.injEq, not_and]
      intro hcc
      exact absurd hcc h2

/-- The capture stops where the lookahead holds. -/
theorem timeline_capture_stop {s : List Char} (h : tl_stop s = true) :
    timeline_capture s = ([], s) := by
  rw [timeline_capture.eq_def, if_pos h]

/-- The capture consumes one character where the lookahead fails. -/
theorem timeline_capture_step {c : Char} {cs : List Char}
    (h : tl_stop (c :: cs) = false) :
    timeline_capture (c :: cs) =
      (c :: (timeline_capture cs).1, (timeline_capture cs).2) := by
  rw [timeline_capture.eq_def, if_neg (by simp [h])]

/-- The capture passes through a `#`-free run that is not at the end. -/
theorem timeline_capture_hashfree {a s : List Char} (ha : ∀ c ∈ a, c ≠ '#')
    (hs : s ≠ []) :
    timeline_capture (a ++ s) =
      (a ++ (timeline_capture s).1, (timeline_capture s).2) := by
  induction a with
  | nil => simp
  | cons c t ih =>
    have hst : tl_stop (c :: (t ++ s)) = false :=
      tl_stop_false_of (ha c (List.mem_cons_self c t))
        (Or.inl (by simp [hs]))
    rw [List.cons_append, timeline_capture_step hst,
      ih (fun x hx => ha x (List.mem_cons_of_mem c hx))]
    simp

/-- A `#`-free input that does not end in a newline is captured whole. -/
theorem timeline_capture_all {s : List Char} (ha : ∀ c ∈ s, c ≠ '#')
    (hl : s.getLast? ≠ some '\n') : timeline_capture s = (s, []) := by
  induction s with
  | nil => rfl
  | cons c cs ih =>
    cases cs with
    | nil =>
      have hc : c ≠ '\n' := by
        intro he
        exact hl (by simp [he])
      rw [timeline_capture_step (tl_stop_false_of
        (ha c (List.mem_cons_self c [])) (Or.inr hc))]
      rfl
    | cons d ds =>
      have hst : tl_stop (c :: d :: ds) = false :=
        tl_stop_false_of (ha c (List.mem_cons_self c (d :: ds)))
          (Or.inl (by simp))
      rw [timeline_capture_step hst,
        ih (fun x hx => ha x (List.mem_cons_of_mem c hx))
          (by rwa [List.getLast?_cons_cons] at hl)]

/-- The title capture passes through CR/LF-free text and stops at the
newline. -/
theorem title_capture_through {Y r : List Char}
    (hY : ∀ c ∈ Y, c ≠ '\r' ∧ c ≠ '\n') :
    title_capture (Y ++ '\n' :: r) = some (Y, r) := by
  induction Y with
  | nil => rw [List.nil_append, title_capture, if_pos (Or.inr rfl)]
  | cons c t ih =>
    have hc := hY c (List.mem_cons_self c t)
    rw [List.cons_append, title_capture,
      if_neg (by simp [hc.1, hc.2]),
      ih (fun x hx => hY x (List.mem_cons_of_mem c hx))]
    rfl

/-- Without DOTALL, a capture attempt standing on a non-final newline fails. -/
theorem line_capture_newline {t : List Char} (ht : t ≠ []) :
    line_capture ('\n' :: t) = none := by
  have hst : tl_stop ('\n' :: t) = false :=
    tl_stop_false_of (by decide) (Or.inl ht)
  rw [line_capture, if_neg (by simp [hst])]
  simp

/-- `splitFirst` specialised to the timeline heading over a `#`-free run. -/
theorem splitFirst_TL_hashfree {a s : List Char} (ha : ∀ c ∈ a, c ≠ '#') :
    splitFirst TL (a ++ s) = (splitFirst TL s).map (fun p => (a ++ p.1, p.2)) :=
  splitFirst_hashfree ha

/-- `splitFirst` specialised to the title heading over a `#`-free run. -/
theorem splitFirst_TITLE_hashfree {a s : List Char} (ha : ∀ c ∈ a, c ≠ '#') :
    splitFirst TITLE (a ++ s) = (splitFirst TITLE s).map (fun p => (a ++ p.1, p.2)) :=
  splitFirst_hashfree ha

/-- A `#`-free input contains no `#`-headed pattern at all. -/
theorem splitFirst_hashfree_none {q a : List Char} (ha : ∀ c ∈ a, c ≠ '#') :
    splitFirst ('#' :: q) a = none := by
  have h := splitFirst_hashfree (q := q) (s := []) ha
  rw [List.append_nil] at h
  rw [h]
  rfl

/-- No timeline heading inside a `#`-free run. -/
theorem splitFirst_TL_none {a : List Char} (ha : ∀ c ∈ a, c ≠ '#') :
    splitFirst TL a = none :=
  splitFirst_hashfree_none ha

/-- No title heading inside a `#`-free run. -/
theorem splitFirst_TITLE_none {a : List Char} (ha : ∀ c ∈ a, c ≠ '#') :
    splitFirst TITLE a = none :=
  splitFirst_hashfree_none ha

/-- The input family of the round-trip claim: a narrative with a
`## Date Idea:` block and an `## Event Idea:` block, each followed by a
`### Timeline:` section. -/
def sample_narrative (X Y T1 T2 : List Char) : List Char :=
  "## Date Idea: ".data ++ X ++ '\n' ::
    (TL ++ (T1 ++ (TITLE ++ (Y ++ '\n' :: (TL ++ T2)))))

/-- C5, amended.  For a narrative with blocks `## Date Idea: X` and
`## Event Idea: Y`, each followed by a `### Timeline:` body starting on its
own line (`#`-free titles and bodies, the last body non-empty and not
ending in a newline): the parser yields exactly two timeline fragments, but
the first fragment runs on past the `## Event Idea: Y` header (only `###`
or the end stops a capture); the extracted titles are `[Y]` alone — the
title pattern knows only `## Event Idea:` — so the fragments are paired
with `Y` and the fallback label `Event Idea 2`, not with `X` and `Y`; and
the returned main narrative is *unchanged*: the `re.sub` of line 458 runs
without `re.DOTALL` and removes nothing here, so both `### Timeline:`
sections remain. -/
theorem timeline_parsing_amended (X Y t1 t2 : List Char)
    (hX : ∀ c ∈ X, c ≠ '#')
    (hY : ∀ c ∈ Y, c ≠ '#' ∧ c ≠ '\r' ∧ c ≠ '\n')
    (hT1 : ∀ c ∈ t1, c ≠ '#')
    (hT2 : ∀ c ∈ t2, c ≠ '#')
    (ht2ne : t2 ≠ [])
    (ht2last : t2.getLast? ≠ some '\n') :
    timeline_matches (sample_narrative X Y ('\n' :: t1) ('\n' :: t2)) =
      [('\n' :: t1) ++ (TITLE ++ (Y ++ ['\n'])), '\n' :: t2] ∧
    title_matches (sample_narrative X Y ('\n' :: t1) ('\n' :: t2)) = [Y] ∧
    (paired_timelines (sample_narrative X Y ('\n' :: t1) ('\n' :: t2))).map
        Prod.fst = [Y, "Event Idea 2".data] ∧
    remove_timelines (sample_narrative X Y ('\n' :: t1) ('\n' :: t2)) =
      sample_narrative X Y ('\n' :: t1) ('\n' :: t2) := by
  have hYsharp : ∀ c ∈ Y, c ≠ '#' := fun c hc => (hY c hc).1
  have hYnl : ∀ c ∈ Y, c ≠ '\r' ∧ c ≠ '\n' := fun c hc => ⟨(hY c hc).2.1, (hY c hc).2.2⟩
  -- the run after the first timeline heading
  set W : List Char :=
    ('\n' :: t1) ++ (TITLE ++ (Y ++ '\n' :: (TL ++ ('\n' :: t2)))) with hW
  -- locating the first timeline heading
  have hA : splitFirst TL
      (sample_narrative X Y ('\n' :: t1) ('\n' :: t2)) =
      some ('#' :: '#' :: (" Date Idea: ".data ++ (X ++ ['\n'])), W) := by
    show splitFirst TL ('#' :: '#' :: (" Date Idea: ".data ++
      (X ++ '\n' :: (TL ++ W)))) =
      some ('#' :: '#' :: (" Date Idea: ".data ++ (X ++ ['\n'])), W)
    rw [splitFirst_cons_not (by rfl), splitFirst_cons_not (by rfl),
      splitFirst_TL_hashfree (by decide), splitFirst_TL_hashfree hX,
      splitFirst_cons_not (by rfl), splitFirst_at_self (by decide)]
    rfl
  -- the capture after it: runs through the Event-Idea header up to the
  -- second timeline heading
  have hBT : timeline_capture (TITLE ++ (Y ++ '\n' :: (TL ++ ('\n' :: t2)))) =
      (TITLE ++ (Y ++ ['\n']), TL ++ ('\n' :: t2)) := by
    show timeline_capture ('#' :: '#' :: (" Event Idea: ".data ++
      (Y ++ '\n' :: (TL ++ ('\n' :: t2))))) = _
    rw [timeline_capture_step (by rfl), timeline_capture_step (by rfl),
      timeline_capture_hashfree (by decide) (by simp),
      timeline_capture_hashfree hYsharp (by simp),
      timeline_capture_step (tl_stop_false_of (by decide)
        (Or.inl (by simp [TL]))),
      timeline_capture_stop (by rfl)]
    rfl
  have hB : timeline_capture W = (('\n' :: t1) ++ (TITLE ++ (Y ++ ['\n'])),
      TL ++ ('\n' :: t2)) := by
    rw [hW]
    show timeline_capture ('\n' :: (t1 ++
      (TITLE ++ (Y ++ '\n' :: (TL ++ ('\n' :: t2)))))) = _
    rw [timeline_capture_step (tl_stop_false_of (by decide)
        (Or.inl (by simp [TITLE]))),
      timeline_capture_hashfree hT1 (by simp [TITLE]), hBT]
    rfl
  -- the second fragment is captured whole
  have hC : timeline_capture ('\n' :: t2) = ('\n' :: t2, []) := by
    refine timeline_capture_all ?_ ?_
    · intro c hc
      rcases List.mem_cons.mp hc with rfl | hc2
      · decide
      · exact hT2 c hc2
    · cases t2 with
      | nil => exact absurd rfl ht2ne
      | cons d ds => rwa [List.getLast?_cons_cons]
  have htm : timeline_matches (sample_narrative X Y ('\n' :: t1) ('\n' :: t2)) =
      [('\n' :: t1) ++ (TITLE ++ (Y ++ ['\n'])), '\n' :: t2] := by
    rw [timeline_matches_of_some hA, hB,
      timeline_matches_of_some (splitFirst_at_self (by decide)), hC,
      timeline_matches_of_none (by rfl)]
  -- the single title match
  have hTa : splitFirst TITLE
      (sample_narrative X Y ('\n' :: t1) ('\n' :: t2)) =
      some ('#' :: '#' :: (" Date Idea: ".data ++ (X ++ '\n' ::
          ('#' :: '#' :: '#' :: (" Timeline:".data ++ '\n' :: (t1 ++ []))))),
        Y ++ '\n' :: (TL ++ ('\n' :: t2))) := by
    show splitFirst TITLE ('#' :: '#' :: (" Date Idea: ".data ++ (X ++ '\n' ::
      ('#' :: '#' :: '#' :: (" Timeline:".data ++ ('\n' :: (t1 ++
        (TITLE ++ (Y ++ '\n' :: (TL ++ ('\n' :: t2))))))))))) =
      some ('#' :: '#' :: (" Date Idea: ".data ++ (X ++ '\n' ::
          ('#' :: '#' :: '#' :: (" Timeline:".data ++ '\n' :: (t1 ++ []))))),
        Y ++ '\n' :: (TL ++ ('\n' :: t2)))
    rw [splitFirst_cons_not (by rfl), splitFirst_cons_not (by rfl),
      splitFirst_TITLE_hashfree (by decide), splitFirst_TITLE_hashfree hX,
      splitFirst_cons_not (by rfl), splitFirst_cons_not (by rfl),
      splitFirst_cons_not (by rfl), splitFirst_cons_not (by rfl),
      splitFirst_TITLE_hashfree (by decide), splitFirst_cons_not (by rfl),
      splitFirst_TITLE_hashfree hT1, splitFirst_at_self (by decide)]
    rfl
  have hTnone : splitFirst TITLE (TL ++ ('\n' :: t2)) = none := by
    show splitFirst TITLE ('#' :: '#' :: '#' ::
      (" Timeline:".data ++ ('\n' :: t2))) = none
    rw [splitFirst_cons_not (by rfl), splitFirst_cons_not (by rfl),
      splitFirst_cons_not (by rfl), splitFirst_TITLE_hashfree (by decide),
      splitFirst_cons_not (by rfl), splitFirst_TITLE_none hT2]
    rfl
  have httl : title_matches (sample_narrative X Y ('\n' :: t1) ('\n' :: t2)) =
      [Y] := by
    rw [title_matches_of_some hTa (title_capture_through hYnl),
      title_matches_of_none hTnone]
  refine ⟨htm, httl, ?_, ?_⟩
  · rw [paired_timelines, htm, httl]
    simp [List.enum, List.enumFrom]
    rfl
  · -- the sub without DOTALL matches neither heading
    have hl1 : line_capture W = none := by
      rw [hW]
      show line_capture ('\n' :: (t1 ++
        (TITLE ++ (Y ++ '\n' :: (TL ++ ('\n' :: t2)))))) = none
      exact line_capture_newline (by simp [TITLE])
    have hA2 : splitFirst TL W =
        some ('\n' :: (t1 ++ ('#' :: '#' :: (" Event Idea: ".data ++
          (Y ++ ['\n'])))), '\n' :: t2) := by
      rw [hW]
      show splitFirst TL ('\n' :: (t1 ++ ('#' :: '#' :: (" Event Idea: ".data ++
        (Y ++ '\n' :: (TL ++ ('\n' :: t2))))))) =
        some ('\n' :: (t1 ++ ('#' :: '#' :: (" Event Idea: ".data ++
          (Y ++ ['\n'])))), '\n' :: t2)
      rw [splitFirst_cons_not (by rfl), splitFirst_TL_hashfree hT1,
        splitFirst_cons_not (by rfl), splitFirst_cons_not (by rfl),
        splitFirst_TL_hashfree (by decide), splitFirst_TL_hashfree hYsharp,
        splitFirst_cons_not (by rfl), splitFirst_at_self (by decide)]
      rfl
    have hl2 : line_capture ('\n' :: t2) = none := line_capture_newline ht2ne
    have hnone2 : splitFirst TL ('\n' :: t2) = none := by
      rw [splitFirst_cons_not (by rfl), splitFirst_TL_none hT2]
      rfl
    rw [remove_timelines_of_failed hA hl1,
      remove_timelines_of_failed hA2 hl2,
      remove_timelines_of_none hnone2,
      ← splitFirst_some_append hA2, ← splitFirst_some_append hA]

/-- Witness for `timeline_parsing_amended`: the titles `X`/`Y` with bodies
`"\n- a\n"` and `"\n- b"`. -/
theorem timeline_parsing_amended_witness :
    timeline_matches (sample_narrative "X".data "Y".data
        ('\n' :: "- a\n".data) ('\n' :: "- b".data)) =
      [('\n' :: "- a\n".data) ++ (TITLE ++ ("Y".data ++ ['\n'])),
        '\n' :: "- b".data] ∧
    title_matches (sample_narrative "X".data "Y".data
        ('\n' :: "- a\n".data) ('\n' :: "- b".data)) = ["Y".data] ∧
    (paired_timelines (sample_narrative "X".data "Y".data
        ('\n' :: "- a\n".data) ('\n' :: "- b".data))).map Prod.fst =
      ["Y".data, "Event Idea 2".data] ∧
    remove_timelines (sample_narrative "X".data "Y".data
        ('\n' :: "- a\n".data) ('\n' :: "- b".data)) =
      sample_narrative "X".data "Y".data
        ('\n' :: "- a\n".data) ('\n' :: "- b".data) :=
  timeline_parsing_amended "X".data "Y".data "- a\n".data "- b".data
    (by decide) (by decide) (by decide) (by decide) (by decide) (by decide)

/-! ## The generation engine `generate_date_ideas` (utilities/openai_tools.py)

The function is embedded with its external dependencies as parameters: the
outcome of the chat-completion call is an `Except` (exception message or
returned content), and the regex-based place extraction of lines 258–261,
the provider-backed place resolution of lines 282–389, the map rendering of
line 396 and the word-boundary span substitution of lines 424–431 are
function parameters collected in `GenDeps` (they wrap external providers or
pure regex layers that none of the verified claims depend on).  Everything
else — the guard clauses, the narrative parsing, the per-timeline filter
loop, the rendering loop and, crucially, which locals are assigned on which
paths — is embedded faithfully.

Python locals that are only assigned inside `if location:` blocks
(`place_details_list`, line 241; `timeline_places`, line 246;
`place_info_by_name`, line 285) are modelled as `Option`-typed values; a
read of an unassigned one raises `NameError` (embedded as `Except.error`
with CPython's message), which the function's blanket `except` at line 465
turns into the "Error Generating Event Ideas" block. -/

/-- Python `str.isspace` members stripped by `str.strip()` (ASCII). -/
def pyIsSpace (c : Char) : Bool :=
  c = ' ' || c = '\t' || c = '\n' || c = '\r' || c = '\x0b' || c = '\x0c'

/-- Python `str.strip()`. -/
def pyStrip (s : List Char) : List Char :=
  ((s.dropWhile pyIsSpace).reverse.dropWhile pyIsSpace).reverse

/-- Python truthiness-and-blankness test of line 209:
`not content or content.strip() == ""`. -/
def pyIsBlank (s : String) : Bool :=
  s.data.isEmpty || (pyStrip s.data).isEmpty

/-- Python `str.lower()` (ASCII). -/
def pyLower (s : List Char) : List Char := s.map Char.toLower

/-- Python `str.split('\n')`. -/
def splitOnNl : List Char → List (List Char)
  | [] => [[]]
  | c :: cs =>
    if c = '\n' then [] :: splitOnNl cs
    else
      match splitOnNl cs with
      | [] => [[c]]
      | h :: t => (c :: h) :: t

/-- Python `str.replace(old, new, 1)` for single characters. -/
def pyReplaceFirst (old new : Char) : List Char → List Char
  | [] => []
  | c :: cs => if c = old then new :: cs else c :: pyReplaceFirst old new cs

/-- The "feature not available" block (openai_tools.py lines 66–72). -/
def feature_unavailable_block : String :=
  "\n        <div style=\"padding: 20px; text-align: center; background-color: #f8f9fa; border-radius: 8px; border: 1px solid #dee2e6;\">\n            <h3 style=\"color: #6c757d;\">Event Generator Feature Not Available</h3>\n            <p>The OpenAI API key is not configured. Event generation is disabled.</p>\n            <p>To enable this feature, please add your OpenAI API key to the .env file.</p>\n        </div>\n        "

/-- The "no event ideas were generated" block (lines 210–215). -/
def no_ideas_block : String :=
  "\n            <div style=\"padding: 20px; text-align: center; background-color: #f8f9fa; border-radius: 8px; border: 1px solid #dee2e6;\">\n                <h3 style=\"color: #6c757d;\">No event ideas were generated</h3>\n                <p>The AI could not generate any event ideas. Please try again with different preferences.</p>\n            </div>\n            "

/-- The fixed prefix of the exception block (lines 467–470, up to `{str(e)}`). -/
def error_block_head : String :=
  "\n        <div style=\"padding: 20px; text-align: center; background-color: #f8f9fa; border-radius: 8px; border: 1px solid #dee2e6;\">\n            <h3 style=\"color: #6c757d;\">Error Generating Event Ideas</h3>\n            <p>An error occurred while generating event ideas: "

/-- The fixed suffix of the exception block (lines 470–473). -/
def error_block_tail : String :=
  "</p>\n            <p>Please try again later or with different parameters.</p>\n        </div>\n        "

/-- The "Error Generating Event Ideas" block (lines 467–473), with the
exception text interpolated as by `{str(e)}`. -/
def error_block (e : String) : String :=
  error_block_head ++ e ++ error_block_tail

/-- The stop-list of line 268. -/
def place_stop_list : List (List Char) :=
  ["this".data, "that".data, "then".data, "there".data, "home".data,
   "free".data, "lunch".data, "dinner".data]

/-- The filter loop of lines 264–271 over one timeline's raw regex matches:
keep names longer than 3 characters, not on the stop-list, not already
collected; returns the grown global list and this timeline's own names. -/
def filter_new_places : List (List Char) → List (List Char) →
    List (List Char) × List (List Char)
  | [], acc => (acc, [])
  | p :: rest, acc =>
    let place_name := pyStrip p
    if 3 < place_name.length ∧ place_stop_list.contains (pyLower place_name) = false ∧
        acc.contains place_name = false then
      let r := filter_new_places rest (acc ++ [place_name])
      (r.1, place_name :: r.2)
    else filter_new_places rest acc

/-- The per-timeline extraction loop of lines 248–274, with the raw
pattern-matching step (lines 258–261) supplied as `pm`. -/
def extract_places_all (pm : List Char → List (List Char)) :
    List (List Char) → List (List Char) →
    List (List Char) × List (List (List Char))
  | [], acc => (acc, [])
  | t :: rest, acc =>
    let r1 := filter_new_places (pm t) acc
    let r2 := extract_places_all pm rest r1.1
    (r2.1, r1.2 :: r2.2)

/-- The per-line HTML formatting of a timeline body (lines 435–443). -/
def format_timeline_lines (s : List Char) : String :=
  String.join ((splitOnNl (pyStrip s)).map (fun l0 =>
    let l := pyStrip l0
    if l.head? = some '•' ∨ l.head? = some '-' then
      "<div class=\"timeline-entry\" style=\"margin-bottom:12px; padding-left:15px; border-left:3px solid #4f46e5;\">" ++
        String.mk (pyStrip (pyReplaceFirst '-' '•' l)) ++ "</div>"
    else "<div style=\"margin-bottom:8px;\">" ++ String.mk l ++ "</div>"))

/-- One rendered timeline item (the f-string of lines 445–452). -/
def timeline_item_html (title : String) (formatted : String) : String :=
  "\n                <div class=\"timeline-item\" style=\"margin-bottom:30px;\">\n                    <h3 style=\"color:#4f46e5; font-size:20px; font-weight:bold; margin-top:30px; margin-bottom:15px;\">Timeline for \"" ++
    title ++
    "\"</h3>\n                    <div class=\"timeline-content\" style=\"background-color:#f9fafb; padding:20px; border-radius:8px; border:1px solid #e5e7eb;\">\n                        " ++
    formatted ++
    "\n                    </div>\n                </div>\n                "

/-- The wrapper and header that open the timeline panel (lines 402–403). -/
def timelines_wrapper_open : String :=
  "<div class='timelines-wrapper'>" ++
  "<h2 style='color: #4f46e5; border-bottom: 2px solid #818cf8; padding-bottom: 10px; margin-top: 0; margin-bottom: 20px; font-size: 24px; font-weight: bold; display: block; width: 100%;'>Timelines for Event Packages</h2>"

/-- The external dependencies of `generate_date_ideas` left abstract:
`place_pattern_matches` is the combined raw match list of the three place
regexes over one timeline (lines 258–261, before the filter loop);
`resolve` is the provider-backed resolution loop of lines 282–389, returning
the collected place-details list (appended to `place_details_list`) and the
key set of `place_info_by_name`; `create_map_html` is `create_map`'s first
component (line 396); `place_sub` is the word-boundary clickable-span
substitution of lines 424–431 applied to one place name.  (The
`activity_pattern_matches` of line 253 feed only `activities_list`, which is
used solely inside the abstracted resolution step's query-enhancement
prompt, and `date_components`, which is never read after line 279; neither
affects any output, so they are not threaded.) -/
structure GenDeps where
  place_pattern_matches : List Char → List (List Char)
  resolve : List (List Char) → String → List String × List (List Char)
  create_map_html : List String → String → String
  place_sub : List Char → List Char → List Char

/-- Reading a Python local that may be unassigned: a local only ever bound
inside an untaken `if` raises `NameError: name 'X' is not defined` when
read; `str(e)` of that exception is exactly the message. -/
def readLocal {α : Type} (v : Option α) (name : String) : Except String α :=
  match v with
  | some a => Except.ok a
  | none => Except.error ("name '" ++ name ++ "' is not defined")

/-- The inner loop of lines 420–431: for each of this timeline's places,
test `place_key in place_info_by_name` (a read of that local — `NameError`
if it was never assigned) and, on a hit, substitute the clickable span. -/
def clickify (sub : List Char → List Char → List Char)
    (info : Option (List (List Char))) :
    List (List Char) → List Char → Except String (List Char)
  | [], t => Except.ok t
  | p :: rest, t => do
    let keys ← readLocal info "place_info_by_name"
    clickify sub info rest (if keys.contains (pyLower p) then sub p t else t)

/-- The rendering loop of lines 410–452 over `enumerate(timeline_matches)`:
pick the title (or ordinal fallback), read `timeline_places[i] if i <
len(timeline_places) else []` (a read of that local — `NameError` if it was
never assigned), make this timeline's places clickable, then emit the
formatted timeline item. -/
def render_items (deps : GenDeps) (titles : List (List Char))
    (tp : Option (List (List (List Char))))
    (info : Option (List (List Char))) :
    List (ℕ × List Char) → Except String String
  | [] => Except.ok ""
  | (i, timeline) :: rest => do
    let title := titles.getD i (default_title i)
    let tpl ← readLocal tp "timeline_places"
    let ctp := tpl.getD i []
    let processed ← clickify deps.place_sub info ctp timeline
    let tail ← render_items deps titles tp info rest
    Except.ok (timeline_item_html (String.mk title)
      (format_timeline_lines processed) ++ tail)

/-- The body of the `try:` block of `generate_date_ideas` (lines 206–463),
from the returned chat content onwards.  `location ≠ ""` is Python's
truthiness test `if location:`; the three locals assigned only under such
guards (`place_details_list`, `timeline_places`, `place_info_by_name`) are
`Option`-valued and every read goes through `readLocal`. -/
def generate_date_ideas_body (deps : GenDeps) (maps : Bool) (location : String)
    (content : String) : Except String (String × String × String × List String) :=
  if pyIsBlank content then Except.ok (no_ideas_block, "", "", [])
  else
    let tms := timeline_matches content.data
    let ext : List (List Char) × Option (List (List (List Char))) × Option (List String) :=
      if location ≠ "" then
        let r := extract_places_all deps.place_pattern_matches tms []
        (r.1, some r.2, some [])
      else ([], none, none)
    let place_names := ext.1
    let timeline_places := ext.2.1
    let pdl0 := ext.2.2
    let res : Option (List (List Char)) × Option (List String) :=
      if location ≠ "" ∧ maps = true ∧ place_names ≠ [] then
        let rr := deps.resolve place_names location
        (some rr.2, some (pdl0.getD [] ++ rr.1))
      else (none, pdl0)
    let place_info_by_name := res.1
    let place_details_list := res.2
    do
      let map_html ←
        if location ≠ "" ∧ maps = true then do
          let pdl ← readLocal place_details_list "place_details_list"
          pure (if pdl.isEmpty then "" else deps.create_map_html pdl location)
        else pure ""
      let tl_main ←
        if tms.isEmpty then pure (("" : String), content.data)
        else do
          let titles := title_matches content.data
          let items ← render_items deps titles timeline_places place_info_by_name tms.enum
          pure (timelines_wrapper_open ++ items ++ "</div>",
            remove_timelines content.data)
      let pdl ← readLocal place_details_list "place_details_list"
      Except.ok (String.mk tl_main.2, tl_main.1, map_html, pdl)

/-- `generate_date_ideas` (openai_tools.py lines 28–474): the availability
gate of lines 65–73, then the `try:` body with the chat-completion outcome
supplied as `chat` (`Except.error e` when the call raises), and the blanket
`except Exception` of lines 465–474 turning any raised exception into the
"Error Generating Event Ideas" block. -/
def generate_date_ideas (deps : GenDeps) (openai_avail maps : Bool)
    (location : String) (chat : Except String String) :
    String × String × String × List String :=
  if openai_avail = false then (feature_unavailable_block, "", "", [])
  else
    match (do
      let content ← chat
      generate_date_ideas_body deps maps location content :
        Except String (String × String × String × List String)) with
    | Except.ok r => r
    | Except.error e => (error_block e, "", "", [])

/-- **C3.** Refuted: with a configured language provider but *no* location,
`generate_date_ideas` never returns the narrative with empty map/place
outputs — it always returns the "Error Generating Event Ideas" block.  The
extraction block of lines 228–279 is skipped when `location` is falsy,
leaving `timeline_places` and `place_details_list` unassigned; the
rendering loop's read at line 414 (when the narrative has a timeline) or
the return statement's read at line 463 (when it has none) then raises
`NameError`, which the blanket `except` of lines 465–474 converts into the
error block. -/
theorem generate_no_location_always_errors (deps : GenDeps) (maps : Bool)
    (content : String) (hb : pyIsBlank content = false) :
    (timeline_matches content.data ≠ [] →
      generate_date_ideas deps true maps "" (Except.ok content) =
        (error_block "name 'timeline_places' is not defined", "", "", [])) ∧
    (timeline_matches content.data = [] →
      generate_date_ideas deps true maps "" (Except.ok content) =
        (error_block "name 'place_details_list' is not defined", "", "", [])) := by
  constructor
  · intro h
    obtain ⟨t, rest, htm⟩ : ∃ t rest, timeline_matches content.data = t :: rest := by
      cases hx : timeline_matches content.data with
      | nil => exact absurd hx h
      | cons a b => exact ⟨a, b, rfl⟩
    simp [generate_date_ideas, generate_date_ideas_body, hb, htm, render_items,
      readLocal, List.enum, List.enumFrom, Except.bind, bind, pure, Except.pure]
  · intro h
    simp [generate_date_ideas, generate_date_ideas_body, hb, h, readLocal,
      Except.bind, bind, pure, Except.pure]

/-- A trivial concrete dependency bundle for closed evaluations: the place
regexes match nothing, resolution finds nothing, the map renders empty and
substitution is the identity. -/
def deps0 : GenDeps :=
  ⟨fun _ => [], fun _ _ => ([], []), fun _ _ => "", fun _ t => t⟩

/-- Witness for C3's refutation theorem at concrete inputs: a narrative
with a timeline section hits the `timeline_places` NameError, one without
hits the `place_details_list` NameError. -/
theorem generate_no_location_always_errors_witness :
    (pyIsBlank "### Timeline: x" = false ∧
      timeline_matches ("### Timeline: x").data ≠ [] ∧
      generate_date_ideas deps0 true false "" (Except.ok "### Timeline: x") =
        (error_block "name 'timeline_places' is not defined", "", "", [])) ∧
    (pyIsBlank "Hello" = false ∧
      timeline_matches ("Hello").data = [] ∧
      generate_date_ideas deps0 true false "" (Except.ok "Hello") =
        (error_block "name 'place_details_list' is not defined", "", "", [])) := by
  have ha : pyIsBlank "### Timeline: x" = false := by decide
  have hb : pyIsBlank "Hello" = false := by decide
  have h2 : timeline_matches ("### Timeline: x").data = [(" x").data] := by
    rw [timeline_matches_of_some (show splitFirst TL ("### Timeline: x").data
      = some ([], (" x").data) from rfl)]
    have hc : timeline_capture (" x").data = ((" x").data, []) := by rfl
    rw [hc, timeline_matches_of_none (by rfl)]
  have h1 : timeline_matches ("Hello").data = [] :=
    timeline_matches_of_none (by rfl)
  refine ⟨⟨ha, by rw [h2]; exact (by decide), ?_⟩, hb, h1, ?_⟩
  · exact (generate_no_location_always_errors deps0 false "### Timeline: x" ha).1
      (by rw [h2]; exact (by decide))
  · exact (generate_no_location_always_errors deps0 false "Hello" hb).2 h1

set_option maxRecDepth 4000 in
/-- **C6 (amended).** A blank or whitespace-only chat content yields the
"No event ideas were generated" block, a raising chat call yields the
"Error Generating Event Ideas" block, both with empty timeline/map/place
outputs, and the two blocks differ from each other (their indentation
alone already separates them at character position 9).  The further claim
that they differ from *any* success-path output is refuted separately. -/
theorem generate_blank_and_exception_blocks (deps : GenDeps) (maps : Bool)
    (location : String) (e : String) (content : String)
    (hb : pyIsBlank content = true) :
    generate_date_ideas deps true maps location (Except.ok content) =
      (no_ideas_block, "", "", []) ∧
    generate_date_ideas deps true maps location (Except.error e) =
      (error_block e, "", "", []) ∧
    no_ideas_block ≠ error_block e := by
  refine ⟨?_, ?_, ?_⟩
  · simp [generate_date_ideas, generate_date_ideas_body, hb,
      Except.bind, bind, pure, Except.pure]
  · simp [generate_date_ideas, Except.bind, bind]
  · intro h
    have h10 := congrArg (fun s : String => s.data.take 10) h
    simp only [error_block] at h10
    rw [show (error_block_head ++ e ++ error_block_tail).data
        = (error_block_head.data ++ e.data) ++ error_block_tail.data from rfl,
      List.append_assoc,
      List.take_append_of_le_length (by decide)] at h10
    exact absurd h10 (by decide)

/-- Witness for C6's amended theorem at a whitespace-only content and a
concrete exception message. -/
theorem generate_blank_and_exception_blocks_witness :
    pyIsBlank " \n " = true ∧
    (generate_date_ideas deps0 true false "Paris" (Except.ok " \n ") =
        (no_ideas_block, "", "", []) ∧
      generate_date_ideas deps0 true false "Paris" (Except.error "boom") =
        (error_block "boom", "", "", []) ∧
      no_ideas_block ≠ error_block "boom") :=
  ⟨by decide,
    generate_blank_and_exception_blocks deps0 false "Paris" "boom" " \n " (by decide)⟩

set_option maxRecDepth 8000 in
/-- The distinguishability-from-success part of C6 is false: when the chat
call succeeds and its content happens to be exactly the text of the
"No event ideas were generated" block (a non-blank string with no timeline
heading), the success path returns that content verbatim as the main
output with empty timeline/map/place outputs — byte-identical to what the
blank-content path returns. -/
theorem generate_success_collides_with_no_ideas :
    generate_date_ideas deps0 true false "Paris" (Except.ok no_ideas_block) =
      generate_date_ideas deps0 true false "Paris" (Except.ok "") ∧
    generate_date_ideas deps0 true false "Paris" (Except.ok no_ideas_block) =
      (no_ideas_block, "", "", []) := by
  have hpb : pyIsBlank no_ideas_block = false := by decide
  have htm : timeline_matches no_ideas_block.data = [] :=
    timeline_matches_of_none (by decide)
  have h1 : generate_date_ideas deps0 true false "Paris" (Except.ok no_ideas_block) =
      (no_ideas_block, "", "", []) := by
    simp [generate_date_ideas, generate_date_ideas_body, hpb, htm, deps0,
      extract_places_all, readLocal, Except.bind, bind, pure, Except.pure]
  have h2 : generate_date_ideas deps0 true false "Paris" (Except.ok "") =
      (no_ideas_block, "", "", []) := by
    simp [generate_date_ideas, generate_date_ideas_body,
      Except.bind, bind, pure, Except.pure, pyIsBlank, pyStrip]
  exact ⟨h1.trans h2.symm, h1⟩
